import Mathlib

/-!
Verification of the color/theme selection logic and the request
validation/normalization decorator of the chart MCP server
(`src/main_optimized.py`), via a shallow embedding in Lean.

Python `str` values are embedded as `String`, optional `str` parameters as
`Option String` (Python `None` becomes `none`), and Python truthiness of an
optional string (`if not palette_name`) is the predicate `strTruthy`.
-/

/-- A named palette of the theme registry: the value type of
`ColorTheme.ELEGANT_PALETTES` in `main_optimized.py`. -/
structure Palette where
  primary : String
  secondary : String
  accent : String
  light : String
  gradient : List String
deriving DecidableEq, Repr

namespace ColorTheme

/-- The ocean entry of `ColorTheme.ELEGANT_PALETTES`. -/
def ocean : Palette :=
  { primary := "#0066CC", secondary := "#4A90E2", accent := "#7BB3FF",
    light := "#E6F2FF",
    gradient := ["#0066CC", "#4A90E2", "#7BB3FF", "#A8CCFF", "#D4E6FF"] }

/-- The sunset entry of `ColorTheme.ELEGANT_PALETTES`. -/
def sunset : Palette :=
  { primary := "#FF6B6B", secondary := "#FF8E53", accent := "#FFB347",
    light := "#FFF0E6",
    gradient := ["#FF6B6B", "#FF8E53", "#FFB347", "#FFD166", "#FFE6A6"] }

/-- The forest entry of `ColorTheme.ELEGANT_PALETTES`. -/
def forest : Palette :=
  { primary := "#2D6A4F", secondary := "#52B788", accent := "#95D5B2",
    light := "#E9F5EC",
    gradient := ["#2D6A4F", "#52B788", "#95D5B2", "#B7E4C7", "#D8F3DC"] }

/-- The violet entry of `ColorTheme.ELEGANT_PALETTES`. -/
def violet : Palette :=
  { primary := "#5E60CE", secondary := "#7B68EE", accent := "#B4A7D6",
    light := "#F0E6FF",
    gradient := ["#5E60CE", "#7B68EE", "#9B7BD8", "#B4A7D6", "#D1C4E9"] }

/-- The coral entry of `ColorTheme.ELEGANT_PALETTES`. -/
def coral : Palette :=
  { primary := "#FF7F7F", secondary := "#FF9999", accent := "#FFB3B3",
    light := "#FFE6E6",
    gradient := ["#FF7F7F", "#FF9999", "#FFB3B3", "#FFCCCC", "#FFE6E6"] }

/-- `ColorTheme.ELEGANT_PALETTES`: the theme registry, a Python dict embedded
as an association list in the source's insertion order. -/
def ELEGANT_PALETTES : List (String × Palette) :=
  [("ocean", ocean), ("sunset", sunset), ("forest", forest),
   ("violet", violet), ("coral", coral)]

end ColorTheme

/-- Python dict key lookup on the registry: `ELEGANT_PALETTES.get(name)`
without a default (`none` when the key is absent). -/
def palettesFind (name : String) : Option Palette :=
  (ColorTheme.ELEGANT_PALETTES.find? (fun p => p.1 = name)).map (fun p => p.2)

/-- `ColorTheme.ELEGANT_PALETTES.get(name, ColorTheme.ELEGANT_PALETTES["ocean"])`:
registry lookup falling back to the ocean palette for unknown names. -/
def registryLookup (name : String) : Palette :=
  (palettesFind name).getD ColorTheme.ocean

/-- Python truthiness of an optional string: `None` and `""` are falsy,
every other string is truthy (used by `if not palette_name`). -/
def strTruthy : Option String → Bool
  | none => false
  | some s => !(s == "")

/-- The `palette_mapping` dict inside `get_elegant_color`: the static
chart-type → palette-name default table. -/
def palette_mapping : List (String × String) :=
  [("line", "ocean"), ("column", "ocean"), ("bar", "ocean"),
   ("area", "sunset"), ("pie", "coral"), ("scatter", "violet"),
   ("radar", "forest"), ("histogram", "ocean"), ("treemap", "sunset"),
   ("dual_axes", "violet")]

/-- `palette_mapping.get(chart_type, "ocean")`: Python dict `.get` with
default, where `chart_type` may be `None`. -/
def paletteMappingGet (chart_type : Option String) : String :=
  match chart_type with
  | none => "ocean"
  | some s => ((palette_mapping.find? (fun p => p.1 = s)).map (fun p => p.2)).getD "ocean"

/-- The dict returned by `get_elegant_color`: the palette's color fields
plus the `palette_name` key. -/
structure ColorInfo where
  primary : String
  secondary : String
  accent : String
  light : String
  gradient : List String
  palette_name : String
deriving DecidableEq, Repr

/-- The palette fields of a `ColorInfo`, for comparison with registry
entries. -/
def ColorInfo.paletteOf (c : ColorInfo) : Palette :=
  { primary := c.primary, secondary := c.secondary, accent := c.accent,
    light := c.light, gradient := c.gradient }

/-- `get_elegant_color(chart_type, palette_name, data_context)` from
`main_optimized.py`: resolves an optional explicit palette name, semantic
keywords on `chart_type`/`data_context`, and the chart-type default table to
a concrete palette dict. -/
def get_elegant_color (chart_type : Option String) (palette_name : Option String)
    (data_context : Option String) : ColorInfo :=
  let pn : String :=
    if strTruthy palette_name then palette_name.getD ""
    else if chart_type = some "temperature" ∨ data_context = some "temperature" then
      "sunset"
    else if chart_type = some "sales" ∨ data_context = some "sales" then
      "ocean"
    else if chart_type = some "progress" ∨ data_context = some "progress" then
      "forest"
    else if chart_type = some "comparison" ∨ chart_type = some "dual_axes" then
      "violet"
    else
      paletteMappingGet chart_type
  let palette := registryLookup pn
  { primary := palette.primary, secondary := palette.secondary,
    accent := palette.accent, light := palette.light,
    gradient := palette.gradient, palette_name := pn }

/-- `get_palette_colors(palette_name, count)` from `main_optimized.py`:
the first `count` gradient colors of the resolved palette, cycling through
the gradient when `count` exceeds its length. -/
def get_palette_colors (palette_name : String) (count : Nat) : List String :=
  let palette := registryLookup palette_name
  let colors := palette.gradient
  if count > colors.length then
    (List.range count).map (fun i => colors.getD (i % colors.length) "")
  else
    colors.take count

/-!
Embedding of the `validate_and_parse_data` decorator.

Python values reaching the wrapper are embedded as `PyVal`; a `**kwargs`
dict is an association list `Kwargs`. The external JSON parser
(`json.loads`) is kept abstract: the wrapper is parameterized by a function
`jsonLoads : String → Except String PyVal` whose `.error` case models the
raised `json.JSONDecodeError` with its diagnostic text. A wrapped handler is
a function `Kwargs → Except String PyVal`; its `.error` case models an
exception raised by the handler body, which the decorator's outer
`try/except` converts into an error envelope.
-/

/-- A Python value as seen by the validation wrapper: `None`, scalars,
lists, dicts, and pandas `DataFrame`s (a DataFrame is embedded as its list
of rows, each row an association list of column name to cell value). -/
inductive PyVal where
  | none : PyVal
  | bool : Bool → PyVal
  | int : Int → PyVal
  | str : String → PyVal
  | list : List PyVal → PyVal
  | dict : List (String × PyVal) → PyVal
  | dataFrame : List (List (String × PyVal)) → PyVal

/-- Python's `v is None` identity test. -/
def PyVal.isNone : PyVal → Bool
  | PyVal.none => true
  | _ => false

/-- A `**kwargs` dict: association list from argument name to value. -/
def Kwargs := List (String × PyVal)

/-- Python `kwargs[k]` lookup (`none` when `k not in kwargs`). -/
def kwGet (kwargs : Kwargs) (k : String) : Option PyVal :=
  (List.find? (fun p => p.1 = k) kwargs).map (fun p => p.2)

/-- Python `kwargs[k] = v` for a key already present: replaces the value
bound to `k` (the decorator only reassigns existing keys). -/
def kwSet (kwargs : Kwargs) (k : String) (v : PyVal) : Kwargs :=
  List.map (fun p => if p.1 = k then (k, v) else p) kwargs

/-- `pandas.DataFrame(xs)` for the list shapes the decorator feeds it: a
record (dict) element becomes a row with its keys as columns; a scalar
element becomes a single-cell row under pandas' default column label `0`. -/
def pdDataFrame (xs : List PyVal) : PyVal :=
  PyVal.dataFrame (xs.map (fun v =>
    match v with
    | PyVal.dict kvs => kvs
    | v => [("0", v)]))

/-- `DataFrame.empty`: true when the frame has no rows or no columns. -/
def dfEmpty (rows : List (List (String × PyVal))) : Bool :=
  rows.isEmpty || rows.all (fun r => r.isEmpty)

/-- The failure envelope `{"success": False, "error": msg}`. -/
def failEnv (msg : String) : PyVal :=
  PyVal.dict [("success", PyVal.bool false), ("error", PyVal.str msg)]

/-- The success envelope `{"success": True, "image_url": url, "message": msg}`
returned by the chart handlers (e.g. `generate_area_chart`). -/
def okEnv (image_url message : String) : PyVal :=
  PyVal.dict [("success", PyVal.bool true), ("image_url", PyVal.str image_url),
              ("message", PyVal.str message)]

/-- The string-parsing step of the `data` block:
`if isinstance(kwargs["data"], str): kwargs["data"] = json.loads(...)`,
short-circuiting with a `数据解析失败` envelope when the parser raises. -/
def parseDataStep (jsonLoads : String → Except String PyVal) (kwargs : Kwargs)
    (v : PyVal) : Except PyVal Kwargs :=
  match v with
  | PyVal.str s =>
    match jsonLoads s with
    | Except.ok p => Except.ok (kwSet kwargs "data" p)
    | Except.error e => Except.error (failEnv ("数据解析失败: " ++ e))
  | _ => Except.ok kwargs

/-- The list-conversion step of the `data` block:
`if isinstance(kwargs["data"], list): kwargs["data"] = pd.DataFrame(...)`. -/
def toDataFrameStep (kwargs : Kwargs) : Kwargs :=
  match kwGet kwargs "data" with
  | Option.some (PyVal.list xs) => kwSet kwargs "data" (pdDataFrame xs)
  | _ => kwargs

/-- The `data`-handling block of the wrapper: if `data` is present and not
`None`, parse it when it is a string, then convert a list to a `DataFrame`.
Returns the updated kwargs or the error envelope. -/
def processData (jsonLoads : String → Except String PyVal) (kwargs : Kwargs) :
    Except PyVal Kwargs :=
  match kwGet kwargs "data" with
  | Option.none => Except.ok kwargs
  | Option.some v =>
    if v.isNone then Except.ok kwargs
    else
      match parseDataStep jsonLoads kwargs v with
      | Except.error env => Except.error env
      | Except.ok kwargs1 => Except.ok (toDataFrameStep kwargs1)

/-- The `words`-handling block of the wrapper: if `words` is present, not
`None` and a string, parse it, short-circuiting with a `词云数据解析失败`
envelope on a parse error. -/
def processWords (jsonLoads : String → Except String PyVal) (kwargs : Kwargs) :
    Except PyVal Kwargs :=
  match kwGet kwargs "words" with
  | Option.none => Except.ok kwargs
  | Option.some v =>
    if v.isNone then Except.ok kwargs
    else
      match v with
      | PyVal.str s =>
        match jsonLoads s with
        | Except.ok p => Except.ok (kwSet kwargs "words" p)
        | Except.error e => Except.error (failEnv ("词云数据解析失败: " ++ e))
      | _ => Except.ok kwargs

/-- The per-field body of the required-fields loop: the error envelope for
`field` when it is absent (`参数 ... 是必需的`), bound to `None`
(`参数 ... 不能为空`), or bound to an empty `DataFrame`
(`参数 ... 的数据不能为空`); `none` when the field passes. -/
def checkField (kwargs : Kwargs) (field : String) : Option PyVal :=
  match kwGet kwargs field with
  | Option.none => some (failEnv ("参数 \x27" ++ field ++ "\x27 是必需的"))
  | Option.some value =>
    if value.isNone then
      some (failEnv ("参数 \x27" ++ field ++ "\x27 不能为空"))
    else
      match value with
      | PyVal.dataFrame rows =>
        if dfEmpty rows then
          some (failEnv ("参数 \x27" ++ field ++ "\x27 的数据不能为空"))
        else Option.none
      | _ => Option.none

/-- The required-fields loop: returns the envelope of the first violating
field, in declaration order, or `none` when every field passes. -/
def checkRequired (required_fields : List String) (kwargs : Kwargs) : Option PyVal :=
  match required_fields with
  | [] => Option.none
  | f :: rest =>
    match checkField kwargs f with
    | some env => some env
    | Option.none => checkRequired rest kwargs

/-- `validate_and_parse_data(required_fields)` applied to a handler `func`
and a call's `kwargs`: process `data`, process `words`, run the
required-field checks, then invoke the handler; an exception from the
handler (`Except.error`) is caught and converted to a `数据处理异常`
envelope by the decorator's outer `try/except`. -/
def validate_and_parse_data (jsonLoads : String → Except String PyVal)
    (required_fields : List String) (func : Kwargs → Except String PyVal)
    (kwargs : Kwargs) : PyVal :=
  match processData jsonLoads kwargs with
  | Except.error env => env
  | Except.ok kwargs1 =>
    match processWords jsonLoads kwargs1 with
    | Except.error env => env
    | Except.ok kwargs2 =>
      match checkRequired required_fields kwargs2 with
      | some env => env
      | Option.none =>
        match func kwargs2 with
        | Except.ok result => result
        | Except.error e => failEnv ("数据处理异常: " ++ e)

/-- The result-envelope shapes: `{success: True, image_url, message}` or
`{success: False, error}`. -/
def isEnvelopeShape (v : PyVal) : Bool :=
  match v with
  | PyVal.dict [("success", PyVal.bool true), ("image_url", PyVal.str _),
                ("message", PyVal.str _)] => true
  | PyVal.dict [("success", PyVal.bool false), ("error", PyVal.str _)] => true
  | _ => false

/-- A concrete stand-in for `json.loads` at the round-trip test input: maps
the text encoding a one-record list to that list, and everything else to a
`json.JSONDecodeError`-style diagnostic. Used to instantiate the
parser-parameterized theorems on closed inputs. -/
def jsonLoadsAB : String → Except String PyVal := fun s =>
  if s = "[\x7b\"a\":1,\"b\":2\x7d]" then
    Except.ok (PyVal.list [PyVal.dict [("a", PyVal.int 1), ("b", PyVal.int 2)]])
  else Except.error "Expecting value: line 1 column 1 (char 0)"

/-!
Theorems about the color resolver.
-/

/-- The keywords the resolver's semantic branches test for. -/
def semanticKeywords : List String :=
  ["temperature", "sales", "progress", "comparison", "dual_axes"]

theorem paletteOf_eq_registryLookup (ct pn dc : Option String) :
    (get_elegant_color ct pn dc).paletteOf =
      registryLookup (get_elegant_color ct pn dc).palette_name := rfl

theorem registryLookup_mem (name : String) :
    registryLookup name ∈ [ColorTheme.ocean, ColorTheme.sunset, ColorTheme.forest,
      ColorTheme.violet, ColorTheme.coral] := by
  unfold registryLookup palettesFind
  cases hf : ColorTheme.ELEGANT_PALETTES.find? (fun p => p.1 = name) with
  | none => simp [hf]
  | some pr =>
    have hmem := List.mem_of_find?_eq_some hf
    simp only [ColorTheme.ELEGANT_PALETTES, List.mem_cons, List.not_mem_nil,
      or_false] at hmem
    rcases hmem with h | h | h | h | h <;> simp [hf, h]

theorem registryLookup_gradient_length (name : String) :
    (registryLookup name).gradient.length = 5 := by
  have h := registryLookup_mem name
  simp only [List.mem_cons, List.not_mem_nil, or_false] at h
  rcases h with h | h | h | h | h <;> rw [h] <;> rfl

theorem paletteMappingGet_known (ct : Option String) :
    (palettesFind (paletteMappingGet ct)).isSome = true := by
  cases ct with
  | none => decide
  | some s =>
    unfold paletteMappingGet
    cases hf : palette_mapping.find? (fun p => p.1 = s) with
    | none => simp [hf]; decide
    | some pr =>
      have hmem := List.mem_of_find?_eq_some hf
      simp only [palette_mapping, List.mem_cons, List.not_mem_nil, or_false] at hmem
      rcases hmem with h | h | h | h | h | h | h | h | h | h <;> simp [hf, h] <;> decide

theorem resolved_name_known (ct pn dc : Option String) (h : strTruthy pn = false) :
    (palettesFind (get_elegant_color ct pn dc).palette_name).isSome = true := by
  simp only [get_elegant_color, h, Bool.false_eq_true, if_false]
  repeat' split
  any_goals decide
  exact paletteMappingGet_known ct

/-- C1: for every chartType and dataContext, calling `get_elegant_color` with
an explicit (non-empty, hence truthy) `paletteName` returns exactly the
palette obtained by Theme-Registry lookup of that name — which falls back to
the ocean entry when the name is unknown — regardless of the chartType and
dataContext arguments. -/
theorem explicit_palette_overrides (ct dc : Option String) (s : String)
    (h : s ≠ "") :
    (get_elegant_color ct (some s) dc).paletteOf = registryLookup s ∧
    get_elegant_color ct (some s) dc =
      get_elegant_color Option.none (some s) Option.none ∧
    (palettesFind s = Option.none →
      (get_elegant_color ct (some s) dc).paletteOf = ColorTheme.ocean) := by
  have ht : strTruthy (some s) = true := by simp [strTruthy, h]
  refine ⟨?_, ?_, ?_⟩
  · simp [get_elegant_color, ht, ColorInfo.paletteOf]
  · simp [get_elegant_color, ht]
  · intro hnone
    simp [get_elegant_color, ht, ColorInfo.paletteOf, registryLookup, hnone]

theorem explicit_palette_overrides_witness :
    (get_elegant_color (some "pie") (some "zzz") (some "sales")).paletteOf =
      registryLookup "zzz" ∧
    get_elegant_color (some "pie") (some "zzz") (some "sales") =
      get_elegant_color Option.none (some "zzz") Option.none ∧
    (palettesFind "zzz" = Option.none →
      (get_elegant_color (some "pie") (some "zzz") (some "sales")).paletteOf =
        ColorTheme.ocean) :=
  explicit_palette_overrides (some "pie") (some "sales") "zzz" (by decide)

/-- C2 counterexample: with the unknown explicit name "zzz" the returned
`palette_name` field is "zzz" — not a Theme-Registry key, and not the fixed
default "ocean" the claim requires for unknown names. -/
theorem palette_name_echoes_unknown_name :
    (get_elegant_color Option.none (some "zzz") Option.none).palette_name = "zzz" ∧
    palettesFind "zzz" = Option.none ∧
    ¬ (get_elegant_color Option.none (some "zzz") Option.none).palette_name =
        "ocean" := by
  refine ⟨rfl, by decide, by decide⟩

/-- C2 amended: the color fields of the result always equal the
Theme-Registry lookup (with ocean fallback) of the returned `palette_name`;
when `paletteName` is unset or empty the returned `palette_name` is a real
registry key; but when a non-empty `paletteName` is given the returned
`palette_name` echoes it verbatim, even when it matches no registry entry. -/
theorem palette_name_field_spec (ct pn dc : Option String) :
    (get_elegant_color ct pn dc).paletteOf =
      registryLookup (get_elegant_color ct pn dc).palette_name ∧
    (strTruthy pn = false →
      (palettesFind (get_elegant_color ct pn dc).palette_name).isSome = true) ∧
    (∀ s, pn = some s → ¬ s = "" →
      (get_elegant_color ct pn dc).palette_name = s) := by
  refine ⟨rfl, resolved_name_known ct pn dc, ?_⟩
  intro s hpn hs
  subst hpn
  have ht : strTruthy (some s) = true := by simp [strTruthy, hs]
  simp [get_elegant_color, ht]

theorem palette_name_field_spec_witness :
    (palettesFind (get_elegant_color (some "pie") Option.none
        (some "anything")).palette_name).isSome = true ∧
    (get_elegant_color Option.none (some "zzz") Option.none).palette_name =
      "zzz" :=
  ⟨(palette_name_field_spec (some "pie") Option.none (some "anything")).2.1 rfl,
   (palette_name_field_spec Option.none (some "zzz") Option.none).2.2 "zzz" rfl
     (by decide)⟩

/-- C3 counterexample: `dataContext = "comparison"` does not select the
violet palette — with chartType "pie" the resolver picks coral, because the
code's comparison/dual_axes branch tests only `chart_type`, never
`data_context`. -/
theorem dataContext_comparison_counterexample :
    (get_elegant_color (some "pie") Option.none (some "comparison")).palette_name
      = "coral" ∧
    ¬ (get_elegant_color (some "pie") Option.none
        (some "comparison")).palette_name = "violet" := by
  refine ⟨rfl, by decide⟩

/-- C3 amended: with `paletteName` unset, "temperature" (via chartType or
dataContext) selects sunset, then "sales" selects ocean, then "progress"
selects forest; "comparison"/"dual_axes" select violet only when they are
the chartType; a dataContext of "comparison" or "dual_axes" never triggers
violet by itself — for every chartType outside the semantic keywords it
falls through to the chart-type default table. -/
theorem semantic_keyword_resolution (ct dc : Option String) :
    ((ct = some "temperature" ∨ dc = some "temperature") →
      (get_elegant_color ct Option.none dc).palette_name = "sunset") ∧
    (¬ ct = some "temperature" → ¬ dc = some "temperature" →
      (ct = some "sales" ∨ dc = some "sales") →
      (get_elegant_color ct Option.none dc).palette_name = "ocean") ∧
    (¬ ct = some "temperature" → ¬ dc = some "temperature" →
      ¬ ct = some "sales" → ¬ dc = some "sales" →
      (ct = some "progress" ∨ dc = some "progress") →
      (get_elegant_color ct Option.none dc).palette_name = "forest") ∧
    ((ct = some "comparison" ∨ ct = some "dual_axes") →
      ¬ dc = some "temperature" → ¬ dc = some "sales" → ¬ dc = some "progress" →
      (get_elegant_color ct Option.none dc).palette_name = "violet") ∧
    ((dc = some "comparison" ∨ dc = some "dual_axes") →
      ¬ ct = some "temperature" → ¬ ct = some "sales" → ¬ ct = some "progress" →
      ¬ ct = some "comparison" → ¬ ct = some "dual_axes" →
      (get_elegant_color ct Option.none dc).palette_name =
        paletteMappingGet ct) := by
  refine ⟨?_, ?_, ?_, ?_, ?_⟩
  · intro h
    rcases h with h | h <;> subst h <;> simp [get_elegant_color, strTruthy]
  · intro h1 h2 h
    rcases h with h | h <;> subst h <;>
      simp [get_elegant_color, strTruthy, h1, h2]
  · intro h1 h2 h3 h4 h
    rcases h with h | h <;> subst h <;>
      simp [get_elegant_color, strTruthy, h1, h2, h3, h4]
  · intro h h1 h2 h3
    rcases h with h | h <;> subst h <;>
      simp [get_elegant_color, strTruthy, h1, h2, h3]
  · intro h h1 h2 h3 h4 h5
    rcases h with h | h <;> subst h <;>
      simp [get_elegant_color, strTruthy, h1, h2, h3, h4, h5]

theorem semantic_keyword_resolution_witness :
    (get_elegant_color (some "line") Option.none (some "temperature")).palette_name
      = "sunset" ∧
    (get_elegant_color (some "dual_axes") Option.none
        Option.none).palette_name = "violet" ∧
    (get_elegant_color (some "line") Option.none
        (some "comparison")).palette_name = paletteMappingGet (some "line") ∧
    (get_elegant_color Option.none Option.none
        (some "dual_axes")).palette_name = paletteMappingGet Option.none :=
  ⟨(semantic_keyword_resolution (some "line") (some "temperature")).1
      (Or.inr rfl),
   (semantic_keyword_resolution (some "dual_axes") Option.none).2.2.2.1
      (Or.inr rfl) (fun h => nomatch h) (fun h => nomatch h) (fun h => nomatch h),
   (semantic_keyword_resolution (some "line") (some "comparison")).2.2.2.2
      (Or.inl rfl) (by decide) (by decide) (by decide) (by decide) (by decide),
   (semantic_keyword_resolution Option.none (some "dual_axes")).2.2.2.2
      (Or.inr rfl) (fun h => nomatch h) (fun h => nomatch h) (fun h => nomatch h)
      (fun h => nomatch h) (fun h => nomatch h)⟩

/-- C9: with `paletteName` falsy and neither argument matching a semantic
keyword, the resolver answers from the static `palette_mapping` table —
line/column/bar/histogram → ocean, area/treemap → sunset, pie → coral,
scatter → violet, radar → forest, dual_axes → violet — and any chart type
outside the table (including `None`) maps to ocean. -/
theorem default_table_resolution (ct pn dc : Option String)
    (hpn : strTruthy pn = false)
    (hct : ∀ s, ct = some s → ¬ s ∈ semanticKeywords)
    (hdc : ∀ s, dc = some s → ¬ s ∈ semanticKeywords) :
    (get_elegant_color ct pn dc).palette_name = paletteMappingGet ct ∧
    (get_elegant_color ct pn dc).paletteOf = registryLookup (paletteMappingGet ct) ∧
    paletteMappingGet (some "line") = "ocean" ∧
    paletteMappingGet (some "column") = "ocean" ∧
    paletteMappingGet (some "bar") = "ocean" ∧
    paletteMappingGet (some "histogram") = "ocean" ∧
    paletteMappingGet (some "area") = "sunset" ∧
    paletteMappingGet (some "treemap") = "sunset" ∧
    paletteMappingGet (some "pie") = "coral" ∧
    paletteMappingGet (some "scatter") = "violet" ∧
    paletteMappingGet (some "radar") = "forest" ∧
    paletteMappingGet (some "dual_axes") = "violet" ∧
    paletteMappingGet Option.none = "ocean" ∧
    (∀ s, ¬ s ∈ palette_mapping.map Prod.fst →
      paletteMappingGet (some s) = "ocean") := by
  have hct1 : ¬ ct = some "temperature" := fun h => hct _ h (by decide)
  have hct2 : ¬ ct = some "sales" := fun h => hct _ h (by decide)
  have hct3 : ¬ ct = some "progress" := fun h => hct _ h (by decide)
  have hct4 : ¬ ct = some "comparison" := fun h => hct _ h (by decide)
  have hct5 : ¬ ct = some "dual_axes" := fun h => hct _ h (by decide)
  have hdc1 : ¬ dc = some "temperature" := fun h => hdc _ h (by decide)
  have hdc2 : ¬ dc = some "sales" := fun h => hdc _ h (by decide)
  have hdc3 : ¬ dc = some "progress" := fun h => hdc _ h (by decide)
  have hmain : (get_elegant_color ct pn dc).palette_name = paletteMappingGet ct := by
    simp [get_elegant_color, hpn, hct1, hct2, hct3, hct4, hct5, hdc1, hdc2, hdc3]
  refine ⟨hmain, ?_, rfl, rfl, rfl, rfl, rfl, rfl, rfl, rfl, rfl, rfl, rfl, ?_⟩
  · rw [paletteOf_eq_registryLookup, hmain]
  · intro s hs
    unfold paletteMappingGet
    have hfind : palette_mapping.find? (fun p => p.1 = s) = Option.none := by
      rw [List.find?_eq_none]
      intro x hx
      simp only [decide_eq_true_eq]
      intro hxs
      exact hs (hxs ▸ List.mem_map_of_mem Prod.fst hx)
    simp [hfind]

theorem default_table_resolution_witness :
    (get_elegant_color (some "pie") Option.none Option.none).palette_name =
      paletteMappingGet (some "pie") ∧
    paletteMappingGet (some "pie") = "coral" ∧
    paletteMappingGet (some "wordcloud") = "ocean" :=
  have h := default_table_resolution (some "pie") Option.none Option.none rfl
    (by intro s h; injection h with h; subst h; decide) (fun s h => nomatch h)
  ⟨h.1, h.2.2.2.2.2.2.2.2.1, h.2.2.2.2.2.2.2.2.2.2.2.2.2 "wordcloud" (by decide)⟩

/-- C10: an explicit empty-string `paletteName` is falsy in Python, so
`get_elegant_color` behaves exactly as if `paletteName` were absent; in
particular chartType "pie" with `paletteName = ""` yields coral, not the
ocean fallback a registry lookup of "" would give. -/
theorem empty_palette_name_is_falsy (ct dc : Option String) :
    get_elegant_color ct (some "") dc = get_elegant_color ct Option.none dc ∧
    (get_elegant_color (some "pie") (some "") Option.none).palette_name =
      "coral" ∧
    registryLookup "" = ColorTheme.ocean := by
  refine ⟨rfl, rfl, rfl⟩

/-!
Theorems about `get_palette_colors`.
-/

/-- C5: for every palette name (unknown names resolving to ocean) and every
count, `get_palette_colors` returns exactly `count` colors, the one at
index `i` being gradient entry `i mod len(gradient)` of the resolved
palette. -/
theorem get_palette_colors_spec (name : String) (count : Nat) :
    (get_palette_colors name count).length = count ∧
    (∀ i, i < count →
      (get_palette_colors name count).getD i "" =
        (registryLookup name).gradient.getD
          (i % (registryLookup name).gradient.length) "") := by
  have hlen : (registryLookup name).gradient.length = 5 :=
    registryLookup_gradient_length name
  unfold get_palette_colors
  by_cases hc : count > (registryLookup name).gradient.length
  · simp only [hc, if_true]
    constructor
    · simp
    · intro i hi
      rw [List.getD_eq_getElem?_getD, List.getElem?_map, List.getElem?_range hi]
      rfl
  · simp only [hc, if_false]
    constructor
    · rw [List.length_take, hlen]
      omega
    · intro i hi
      have hi5 : i < 5 := by omega
      rw [List.getD_eq_getElem?_getD, List.getElem?_take, if_pos hi,
        Nat.mod_eq_of_lt (by omega), ← List.getD_eq_getElem?_getD]

theorem get_palette_colors_spec_witness :
    (get_palette_colors "ocean" 8).length = 8 ∧
    (get_palette_colors "ocean" 8).getD 6 "" =
      (registryLookup "ocean").gradient.getD
        (6 % (registryLookup "ocean").gradient.length) "" ∧
    get_palette_colors "ocean" 8 =
      ["#0066CC", "#4A90E2", "#7BB3FF", "#A8CCFF", "#D4E6FF",
       "#0066CC", "#4A90E2", "#7BB3FF"] ∧
    get_palette_colors "ocean" 3 = ["#0066CC", "#4A90E2", "#7BB3FF"] ∧
    (get_palette_colors "zzz" 2).length = 2 :=
  ⟨(get_palette_colors_spec "ocean" 8).1,
   (get_palette_colors_spec "ocean" 8).2 6 (by decide),
   rfl, rfl, (get_palette_colors_spec "zzz" 2).1⟩

/-!
Theorems about the validation wrapper.
-/

theorem kwGet_kwSet_isSome (kw : Kwargs) (k f : String) (v : PyVal) :
    (kwGet (kwSet kw k v) f).isSome = (kwGet kw f).isSome := by
  induction kw with
  | nil => rfl
  | cons p rest ih =>
    by_cases hpk : p.1 = k <;> by_cases hpf : p.1 = f <;>
      simp_all [kwSet, kwGet, List.find?_cons]

theorem toDataFrameStep_presence (kw : Kwargs) (f : String) :
    (kwGet (toDataFrameStep kw) f).isSome = (kwGet kw f).isSome := by
  unfold toDataFrameStep
  cases h : kwGet kw "data" with
  | none => rfl
  | some v => cases v <;> simp [kwGet_kwSet_isSome]

theorem parseDataStep_presence (jl : String → Except String PyVal)
    (kw kw1 : Kwargs) (v : PyVal) (f : String)
    (h : parseDataStep jl kw v = Except.ok kw1) :
    (kwGet kw1 f).isSome = (kwGet kw f).isSome := by
  unfold parseDataStep at h
  split at h
  · split at h
    · injection h with h; rw [← h]; exact kwGet_kwSet_isSome ..
    · exact Except.noConfusion h
  · injection h with h; rw [← h]

theorem processData_presence (jl : String → Except String PyVal)
    (kw kw1 : Kwargs) (f : String)
    (h : processData jl kw = Except.ok kw1) :
    (kwGet kw1 f).isSome = (kwGet kw f).isSome := by
  unfold processData at h
  split at h
  · injection h with h; rw [← h]
  · split at h
    · injection h with h; rw [← h]
    · split at h
      · exact Except.noConfusion h
      · rename_i kwp hp
        injection h with h; rw [← h]
        rw [toDataFrameStep_presence]
        exact parseDataStep_presence jl kw kwp _ f hp

theorem processWords_presence (jl : String → Except String PyVal)
    (kw kw1 : Kwargs) (f : String)
    (h : processWords jl kw = Except.ok kw1) :
    (kwGet kw1 f).isSome = (kwGet kw f).isSome := by
  unfold processWords at h
  split at h
  · injection h with h; rw [← h]
  · split at h
    · injection h with h; rw [← h]
    · split at h
      · split at h
        · injection h with h; rw [← h]; exact kwGet_kwSet_isSome ..
        · exact Except.noConfusion h
      · injection h with h; rw [← h]

theorem wrapper_eq_of_processed (jl : String → Except String PyVal)
    (req : List String) (func : Kwargs → Except String PyVal)
    (kwargs kw1 kw2 : Kwargs)
    (hd : processData jl kwargs = Except.ok kw1)
    (hw : processWords jl kw1 = Except.ok kw2) :
    validate_and_parse_data jl req func kwargs =
      (match checkRequired req kw2 with
       | some env => env
       | Option.none =>
         match func kw2 with
         | Except.ok r => r
         | Except.error e => failEnv ("数据处理异常: " ++ e)) := by
  simp only [validate_and_parse_data, hd, hw]

theorem checkRequired_append_passes (pre rest : List String) (kw : Kwargs)
    (hpre : ∀ g, g ∈ pre → checkField kw g = Option.none) :
    checkRequired (pre ++ rest) kw = checkRequired rest kw := by
  induction pre with
  | nil => rfl
  | cons g pre ih =>
    have hg := hpre g (List.mem_cons_self g pre)
    simp only [List.cons_append, checkRequired, hg]
    exact ih (fun g' hg' => hpre g' (List.mem_cons_of_mem g hg'))

theorem processData_str (jl : String → Except String PyVal) (kw : Kwargs)
    (s : String) (hdata : kwGet kw "data" = some (PyVal.str s)) :
    processData jl kw =
      (match jl s with
       | Except.ok p => Except.ok (toDataFrameStep (kwSet kw "data" p))
       | Except.error e => Except.error (failEnv ("数据解析失败: " ++ e))) := by
  simp only [processData, hdata, parseDataStep]
  cases jl s <;> rfl

/-- C6: a declared required field that is absent from the call's keyword
arguments, bound to `None`, or bound to an empty `DataFrame` makes the
wrapper return the corresponding failure envelope naming that field, without
invoking the handler (the conclusion does not depend on `func`), provided
the data/words preprocessing succeeded and the fields checked before it all
pass (the loop reports the first violating field). The final conjunct is the
empty-dataset case: `data=[]` with `data` required. -/
theorem required_field_validation (jl : String → Except String PyVal)
    (pre post : List String) (f : String)
    (func : Kwargs → Except String PyVal)
    (kwargs kw1 kw2 : Kwargs)
    (hd : processData jl kwargs = Except.ok kw1)
    (hw : processWords jl kw1 = Except.ok kw2)
    (hpre : ∀ g, g ∈ pre → checkField kw2 g = Option.none) :
    (kwGet kw2 f = Option.none →
      validate_and_parse_data jl (pre ++ f :: post) func kwargs =
        failEnv ("参数 \x27" ++ f ++ "\x27 是必需的")) ∧
    ((kwGet kwargs f).isSome = false → (kwGet kw2 f).isSome = false) ∧
    (kwGet kw2 f = some PyVal.none →
      validate_and_parse_data jl (pre ++ f :: post) func kwargs =
        failEnv ("参数 \x27" ++ f ++ "\x27 不能为空")) ∧
    (∀ rows, kwGet kw2 f = some (PyVal.dataFrame rows) → dfEmpty rows = true →
      validate_and_parse_data jl (pre ++ f :: post) func kwargs =
        failEnv ("参数 \x27" ++ f ++ "\x27 的数据不能为空")) ∧
    (∀ rest, validate_and_parse_data jl ("data" :: rest) func
        [("data", PyVal.list [])] = failEnv "参数 \x27data\x27 的数据不能为空") := by
  have hw2 := wrapper_eq_of_processed jl (pre ++ f :: post) func kwargs kw1 kw2 hd hw
  refine ⟨?_, ?_, ?_, ?_, ?_⟩
  · intro hf
    rw [hw2, checkRequired_append_passes pre (f :: post) kw2 hpre]
    simp only [checkRequired, checkField, hf]
  · intro hf
    rw [processWords_presence jl kw1 kw2 f hw, processData_presence jl kwargs kw1 f hd]
    exact hf
  · intro hf
    rw [hw2, checkRequired_append_passes pre (f :: post) kw2 hpre]
    simp only [checkRequired, checkField, hf, PyVal.isNone, if_true]
  · intro rows hf hempty
    rw [hw2, checkRequired_append_passes pre (f :: post) kw2 hpre]
    simp only [checkRequired, checkField, hf, PyVal.isNone, Bool.false_eq_true,
      if_false, hempty, if_true]
  · intro rest
    rfl

theorem required_field_validation_witness :
    validate_and_parse_data (fun _ => Except.error "boom")
      ["data", "x_field", "y_field"]
      (fun _ => Except.ok (okEnv "u" "m"))
      [("data", PyVal.list [PyVal.dict [("m", PyVal.int 1)]])] =
      failEnv "参数 \x27x_field\x27 是必需的" ∧
    validate_and_parse_data (fun _ => Except.error "boom") ["data"]
      (fun _ => Except.ok (okEnv "u" "m")) [("data", PyVal.list [])] =
      failEnv "参数 \x27data\x27 的数据不能为空" :=
  have h := required_field_validation (fun _ => Except.error "boom")
    ["data"] ["y_field"] "x_field" (fun _ => Except.ok (okEnv "u" "m"))
    [("data", PyVal.list [PyVal.dict [("m", PyVal.int 1)]])]
    [("data", PyVal.dataFrame [[("m", PyVal.int 1)]])]
    [("data", PyVal.dataFrame [[("m", PyVal.int 1)]])]
    rfl rfl
    (by intro g hg
        have : g = "data" := by simpa using hg
        subst this
        rfl)
  ⟨h.1 rfl, h.2.2.2.2 []⟩

/-- C7: when the `data` argument is a string on which the JSON parser fails
with diagnostic `e`, the wrapper returns the failure envelope built from
that diagnostic, for every handler (so the handler is never invoked) and
without any exception escaping (the embedding is a total function). -/
theorem data_parse_error_shortcircuit (jl : String → Except String PyVal)
    (req : List String) (func : Kwargs → Except String PyVal)
    (kwargs : Kwargs) (s e : String)
    (hdata : kwGet kwargs "data" = some (PyVal.str s))
    (herr : jl s = Except.error e) :
    validate_and_parse_data jl req func kwargs =
      failEnv ("数据解析失败: " ++ e) := by
  simp only [validate_and_parse_data, processData_str jl kwargs s hdata, herr]

theorem data_parse_error_shortcircuit_witness :
    validate_and_parse_data
      (fun _ => Except.error "Expecting value: line 1 column 1 (char 0)")
      ["data"] (fun _ => Except.ok (okEnv "u" "m"))
      [("data", PyVal.str "not json")] =
      failEnv "数据解析失败: Expecting value: line 1 column 1 (char 0)" :=
  data_parse_error_shortcircuit
    (fun _ => Except.error "Expecting value: line 1 column 1 (char 0)")
    ["data"] (fun _ => Except.ok (okEnv "u" "m"))
    [("data", PyVal.str "not json")] "not json"
    "Expecting value: line 1 column 1 (char 0)" rfl rfl

/-- C4 counterexample: with required fields `["data","a","b"]` and a call
whose only keyword argument is `data` as the JSON text for `[{"a":1,"b":2}]`,
the wrapper returns the missing-parameter failure envelope for "a" — the
required-field check inspects keyword-argument names, not the parsed data's
columns — so normalization does not succeed and the handler is never
invoked. -/
theorem normalizer_roundtrip_counterexample :
    validate_and_parse_data jsonLoadsAB ["data", "a", "b"]
      (fun _ => Except.ok (okEnv "u" "m"))
      [("data", PyVal.str "[\x7b\"a\":1,\"b\":2\x7d]")] =
      failEnv "参数 \x27a\x27 是必需的" ∧
    jsonLoadsAB "[\x7b\"a\":1,\"b\":2\x7d]" =
      Except.ok (PyVal.list [PyVal.dict [("a", PyVal.int 1), ("b", PyVal.int 2)]]) := by
  refine ⟨rfl, rfl⟩

/-- C4 amended: with required fields `["data","a","b"]` and a call that
supplies `data` as the JSON text for `[{"a":1,"b":2}]` together with keyword
arguments `a` and `b` (bound here to the corresponding values 1 and 2),
normalization succeeds and the handler is invoked with `data` replaced by
the single-row table with columns a=1, b=2. -/
theorem normalizer_roundtrip (jl : String → Except String PyVal)
    (func : Kwargs → Except String PyVal)
    (hparse : jl "[\x7b\"a\":1,\"b\":2\x7d]" =
      Except.ok (PyVal.list [PyVal.dict [("a", PyVal.int 1), ("b", PyVal.int 2)]])) :
    validate_and_parse_data jl ["data", "a", "b"] func
      [("data", PyVal.str "[\x7b\"a\":1,\"b\":2\x7d]"),
       ("a", PyVal.int 1), ("b", PyVal.int 2)] =
      (match func [("data", PyVal.dataFrame [[("a", PyVal.int 1), ("b", PyVal.int 2)]]),
                   ("a", PyVal.int 1), ("b", PyVal.int 2)] with
       | Except.ok r => r
       | Except.error e => failEnv ("数据处理异常: " ++ e)) := by
  have hd := processData_str jl
    [("data", PyVal.str "[\x7b\"a\":1,\"b\":2\x7d]"),
     ("a", PyVal.int 1), ("b", PyVal.int 2)]
    "[\x7b\"a\":1,\"b\":2\x7d]" rfl
  rw [hparse] at hd
  rw [wrapper_eq_of_processed jl ["data", "a", "b"] func _ _ _ hd rfl]
  rfl

theorem normalizer_roundtrip_witness :
    validate_and_parse_data jsonLoadsAB ["data", "a", "b"]
      (fun kw => Except.ok (PyVal.dict kw))
      [("data", PyVal.str "[\x7b\"a\":1,\"b\":2\x7d]"),
       ("a", PyVal.int 1), ("b", PyVal.int 2)] =
      PyVal.dict
        [("data", PyVal.dataFrame [[("a", PyVal.int 1), ("b", PyVal.int 2)]]),
         ("a", PyVal.int 1), ("b", PyVal.int 2)] :=
  (normalizer_roundtrip jsonLoadsAB (fun kw => Except.ok (PyVal.dict kw)) rfl).trans
    rfl

theorem parseDataStep_error_shape (jl : String → Except String PyVal)
    (kw : Kwargs) (v : PyVal) (env : PyVal)
    (h : parseDataStep jl kw v = Except.error env) : ∃ m, env = failEnv m := by
  unfold parseDataStep at h
  split at h
  · split at h
    · exact Except.noConfusion h
    · injection h with h; exact ⟨_, h.symm⟩
  · exact Except.noConfusion h

theorem processData_error_shape (jl : String → Except String PyVal)
    (kw : Kwargs) (env : PyVal)
    (h : processData jl kw = Except.error env) : ∃ m, env = failEnv m := by
  unfold processData at h
  split at h
  · exact Except.noConfusion h
  · split at h
    · exact Except.noConfusion h
    · split at h
      · rename_i env' hp
        injection h with h
        exact h ▸ parseDataStep_error_shape jl kw _ env' hp
      · exact Except.noConfusion h

theorem processWords_error_shape (jl : String → Except String PyVal)
    (kw : Kwargs) (env : PyVal)
    (h : processWords jl kw = Except.error env) : ∃ m, env = failEnv m := by
  unfold processWords at h
  split at h
  · exact Except.noConfusion h
  · split at h
    · exact Except.noConfusion h
    · split at h
      · split at h
        · exact Except.noConfusion h
        · injection h with h; exact ⟨_, h.symm⟩
      · exact Except.noConfusion h

theorem checkField_some_shape (kw : Kwargs) (f : String) (env : PyVal)
    (h : checkField kw f = some env) : ∃ m, env = failEnv m := by
  unfold checkField at h
  split at h
  · injection h with h; exact ⟨_, h.symm⟩
  · split at h
    · injection h with h; exact ⟨_, h.symm⟩
    · split at h
      · split at h
        · injection h with h; exact ⟨_, h.symm⟩
        · exact Option.noConfusion h
      · exact Option.noConfusion h

theorem checkRequired_some_shape (req : List String) (kw : Kwargs) (env : PyVal)
    (h : checkRequired req kw = some env) : ∃ m, env = failEnv m := by
  induction req with
  | nil => exact Option.noConfusion h
  | cons f rest ih =>
    unfold checkRequired at h
    split at h
    · rename_i env' hf
      injection h with h
      exact h ▸ checkField_some_shape kw f env' hf
    · exact ih h

/-- C8: the wrapped call is a total function (no exception reaches the
caller: a handler exception becomes a `数据处理异常` envelope), and whenever
the handler's own successful results have the result-envelope shape, the
wrapped call returns a value of the success shape
`{success: True, image_url, message}` or the failure shape
`{success: False, error}` — never anything else. -/
theorem wrapper_result_always_envelope (jl : String → Except String PyVal)
    (req : List String) (func : Kwargs → Except String PyVal) (kwargs : Kwargs)
    (hfunc : ∀ kw r, func kw = Except.ok r → isEnvelopeShape r = true) :
    isEnvelopeShape (validate_and_parse_data jl req func kwargs) = true ∧
    (∀ url msg, isEnvelopeShape (okEnv url msg) = true) ∧
    (∀ msg, isEnvelopeShape (failEnv msg) = true) := by
  refine ⟨?_, fun _ _ => rfl, fun _ => rfl⟩
  cases hd : processData jl kwargs with
  | error env =>
    rcases processData_error_shape jl kwargs env hd with ⟨m, rfl⟩
    simp only [validate_and_parse_data, hd]
    rfl
  | ok kw1 =>
    cases hw : processWords jl kw1 with
    | error env =>
      rcases processWords_error_shape jl kw1 env hw with ⟨m, rfl⟩
      simp only [validate_and_parse_data, hd, hw]
      rfl
    | ok kw2 =>
      cases hc : checkRequired req kw2 with
      | some env =>
        rcases checkRequired_some_shape req kw2 env hc with ⟨m, rfl⟩
        simp only [validate_and_parse_data, hd, hw, hc]
        rfl
      | none =>
        cases hr : func kw2 with
        | ok r =>
          simp only [validate_and_parse_data, hd, hw, hc, hr]
          exact hfunc kw2 r hr
        | error e =>
          simp only [validate_and_parse_data, hd, hw, hc, hr]
          rfl

theorem wrapper_result_always_envelope_witness :
    isEnvelopeShape (validate_and_parse_data (fun _ => Except.error "boom")
      ["data"] (fun _ => Except.ok (okEnv "u" "m")) []) = true :=
  (wrapper_result_always_envelope (fun _ => Except.error "boom") ["data"]
    (fun _ => Except.ok (okEnv "u" "m")) []
    (by intro kw r h
        injection h with h
        rw [← h]
        rfl)).1
